import Mathlib

/-!
Verification development for the message-processing core of the leaf
network layer: a registry binding 16-bit message IDs to protobuf message
schemas, a wire codec framing `[2-byte id][payload]`, and a dispatcher.

Two near-duplicate Go implementations are embedded:
* `ProcessorV1` from `network/protobuf/protobuf_v1.go` (maps
  `msgInfo : Type → *MsgInfoV1`, `msgID : Type → uint16`,
  `typeID : uint16 → Type`);
* `Processor` from the `extend` package (maps
  `msgInfo : uint16 → *MsgInfo`, `msgID : Type → uint16`).

Modelling conventions:
* `reflect.Type` is `GoType`: a numeric identity tag plus whether the
  type's Kind is `reflect.Ptr`; a `nil` interface passed to `Register`
  gives `reflect.TypeOf = none`.
* Go maps are association lists with unique keys; `m[k] = v` is
  `insertM`, `v, ok := m[k]` is `lookupM` (the comma-ok zero value is
  `(lookupM m k).getD 0`).
* `log.Fatal` and returned errors are both modelled by an
  `Option String` component of the result carrying the Go format string;
  on a fatal/error path the state component is returned unchanged
  (in Go no write precedes any of the fatal checks).
* The external serializer `proto.Marshal` / `proto.Unmarshal` is an
  explicit function parameter (`Ser` / `Dser`) producing payload bytes
  resp. a decoded abstract value, each paired with an optional error.
* Handler and router attachments are booleans; `Route` returns the list
  of invocation events it performed, in order, so that "invokes the
  handler exactly once, then one router submission" is a statement about
  that trace.
* Reading a field through a `nil` pointer obtained from an unchecked
  map index (`p.msgInfo[k]` with `k` absent) is the distinguished
  "nil pointer dereference" error.
-/

namespace Leaf

/-- Identity of a Go `reflect.Type`: a tag plus whether its Kind is Ptr. -/
structure GoType where
  tag : Nat
  isPtr : Bool
deriving DecidableEq

/-- `v, ok := m[k]` on a Go map modelled as an association list. -/
def lookupM {κ α : Type} [DecidableEq κ] : List (κ × α) → κ → Option α
  | [], _ => none
  | (k1, v1) :: rest, k => if k = k1 then some v1 else lookupM rest k

/-- `m[k] = v` on a Go map: replace the binding of `k`, else append it. -/
def insertM {κ α : Type} [DecidableEq κ] : List (κ × α) → κ → α → List (κ × α)
  | [], k, v => [(k, v)]
  | (k1, v1) :: rest, k, v =>
    if k = k1 then (k, v) :: rest else (k1, v1) :: insertM rest k v

/-- A value handed to `Marshal`/`Route`: either a `MsgRaw` wrapper or a
typed protobuf message (its `reflect.Type` plus an abstract value). -/
inductive Msg where
  | raw (msgID : Nat) (msgRawData : List Nat)
  | typed (msgType : GoType) (val : Nat)
deriving DecidableEq

/-- An observable invocation performed by `Route`, in program order. -/
inductive Event where
  | handlerCall (msg : Msg) (userData : Nat)
  | rawHandlerCall (msgID : Nat) (rawData : List Nat) (userData : Nat)
  | routerGo (msgType : GoType) (msg : Msg) (userData : Nat)
deriving DecidableEq

/-- `MsgInfoV1` of protobuf_v1.go; the three attachments are modelled by
their presence (`nil`-ness) since invoking them is traced as an `Event`. -/
structure MsgInfoV1 where
  msgType : GoType
  msgID : Nat
  msgRouter : Bool
  msgHandler : Bool
  msgRawHandler : Bool
deriving DecidableEq

/-- `MsgInfo` of the extend package (same shape as `MsgInfoV1`). -/
structure MsgInfo where
  msgType : GoType
  msgID : Nat
  msgRouter : Bool
  msgHandler : Bool
  msgRawHandler : Bool
deriving DecidableEq

/-- The external serializer `proto.Marshal`: payload bytes and error. -/
def Ser : Type := GoType → Nat → List Nat × Option String

/-- The external deserializer `proto.Unmarshal`: fills a fresh instance
of the given type from the bytes, yielding its abstract value and error. -/
def Dser : Type := GoType → List Nat → Nat × Option String

/-- `binary.{Little,Big}Endian.PutUint16` into a fresh 2-byte slice. -/
def putUint16 (littleEndian : Bool) (v : Nat) : List Nat :=
  if littleEndian then [v % 256, v / 256 % 256] else [v / 256 % 256, v % 256]

/-- `binary.{Little,Big}Endian.Uint16` on the first two bytes. -/
def getUint16 (littleEndian : Bool) (data : List Nat) : Nat :=
  if littleEndian then data.getD 0 0 + 256 * data.getD 1 0
  else 256 * data.getD 0 0 + data.getD 1 0

/-- The Go runtime's message for a field read through a nil pointer. -/
def nilDeref : String := "runtime error: invalid memory address or nil pointer dereference"

/-- `ProcessorV1` of protobuf_v1.go. -/
structure ProcessorV1 where
  littleEndian : Bool
  msgInfo : List (GoType × MsgInfoV1)
  msgID : List (GoType × Nat)
  typeID : List (Nat × GoType)
deriving DecidableEq

/-- `NewMsgIdProcessor`: empty maps, `littleEndian` at its zero value. -/
def NewMsgIdProcessor : ProcessorV1 :=
  { littleEndian := false, msgInfo := [], msgID := [], typeID := [] }

/-- `ProcessorV1.SetByteOrder`. -/
def ProcessorV1.SetByteOrder (p : ProcessorV1) (littleEndian : Bool) : ProcessorV1 :=
  { p with littleEndian := littleEndian }

/-- `ProcessorV1.Register`: pointer-kind check, duplicate-schema check,
capacity check (`len(p.msgInfo) >= math.MaxUint16`, i.e. 65535), then the
three map writes. -/
def ProcessorV1.Register (p : ProcessorV1) (msgID : Nat) (msg : Option GoType) :
    ProcessorV1 × Option String :=
  match msg with
  | none => (p, some "protobuf: message must be a pointer")
  | some msgType =>
    if msgType.isPtr = false then
      (p, some "protobuf: message must be a pointer")
    else if (lookupM p.msgInfo msgType).isSome then
      (p, some "protobuf: message %v is already registered")
    else if 65535 ≤ p.msgInfo.length then
      (p, some "too many protobuf messages (max = %v)")
    else
      ({ p with
          msgInfo := insertM p.msgInfo msgType
            { msgType := msgType, msgID := msgID,
              msgRouter := false, msgHandler := false, msgRawHandler := false }
          msgID := insertM p.msgID msgType msgID
          typeID := insertM p.typeID msgID msgType }, none)

/-- `ProcessorV1.Marshal`: header per byte order from `msgInfo`, payload
from the serializer; a `MsgRaw` value's struct type is never a key of the
pointer-keyed `msgInfo`, so it takes the not-registered branch. -/
def ProcessorV1.Marshal (p : ProcessorV1) (ser : Ser) (msg : Msg) :
    Option (List Nat × List Nat) × Option String :=
  match msg with
  | .raw _ _ => (none, some "protobuf: message %v not registered")
  | .typed msgType v =>
    match lookupM p.msgInfo msgType with
    | none => (none, some "protobuf: message %v not registered")
    | some i =>
      let id := putUint16 p.littleEndian i.msgID
      let dataErr := ser msgType v
      (some (id, dataErr.1), dataErr.2)

/-- `ProcessorV1.Unmarshal`: length guard, header decode, `typeID`
lookup, then raw passthrough if a raw handler is attached, else a fresh
instance of `i.msgType` filled by the deserializer. -/
def ProcessorV1.Unmarshal (p : ProcessorV1) (dser : Dser) (data : List Nat) :
    Option Msg × Option String :=
  if data.length < 2 then (none, some "protobuf data too short")
  else
    let id := getUint16 p.littleEndian data
    match lookupM p.typeID id with
    | none => (none, some "protobuf: message ID %d not registered")
    | some msgType =>
      match lookupM p.msgInfo msgType with
      | none => (none, some nilDeref)
      | some i =>
        if i.msgRawHandler then (some (.raw id (data.drop 2)), none)
        else
          let vErr := dser i.msgType (data.drop 2)
          (some (.typed i.msgType vErr.1), vErr.2)

/-- `ProcessorV1.Route`: raw path dispatches only to the raw handler;
typed path invokes the local handler (if any) then the router (if any). -/
def ProcessorV1.Route (p : ProcessorV1) (msg : Msg) (userData : Nat) :
    List Event × Option String :=
  match msg with
  | .raw msgID msgRawData =>
    match lookupM p.typeID msgID with
    | none => ([], some "message id %v not registered")
    | some msgType =>
      match lookupM p.msgInfo msgType with
      | none => ([], some nilDeref)
      | some i =>
        if i.msgRawHandler then ([.rawHandlerCall msgID msgRawData userData], none)
        else ([], none)
  | .typed msgType _ =>
    if (lookupM p.msgID msgType).isSome = false then
      ([], some "message %s not registered")
    else
      match lookupM p.msgInfo msgType with
      | none => ([], some nilDeref)
      | some i =>
        ((if i.msgHandler then [Event.handlerCall msg userData] else []) ++
          (if i.msgRouter then [Event.routerGo msgType msg userData] else []), none)

/-- `Processor` of the extend package. -/
structure Processor where
  littleEndian : Bool
  msgInfo : List (Nat × MsgInfo)
  msgID : List (GoType × Nat)
deriving DecidableEq

/-- Modelled from the spec: the extend package's constructor is not under
src/ (only the Processor type and its methods are); per the spec the
registry "is constructed empty" with the default big-endian byte order. -/
def Processor.new : Processor :=
  { littleEndian := false, msgInfo := [], msgID := [] }

/-- `Processor.SetByteOrder`. -/
def Processor.SetByteOrder (p : Processor) (littleEndian : Bool) : Processor :=
  { p with littleEndian := littleEndian }

/-- `Processor.Register` of the extend package. Note the source's
`id, ok := p.msgID[msgType]` comma-ok: when absent, `id` stays the uint16
zero value, and the subsequent write is `p.msgInfo[id] = ...` — keyed by
that stale `id`, not by the `msgID` parameter. -/
def Processor.Register (p : Processor) (msgID : Nat) (msg : Option GoType) :
    Processor × Option String :=
  match msg with
  | none => (p, some "protobuf: message must be a pointer")
  | some msgType =>
    if msgType.isPtr = false then
      (p, some "protobuf: message must be a pointer")
    else
      let idOk := lookupM p.msgID msgType
      if idOk.isSome then
        (p, some "protobuf: message %v is already registered")
      else if 65535 ≤ p.msgInfo.length then
        (p, some "too many protobuf messages (max = %v)")
      else
        ({ p with
            msgInfo := insertM p.msgInfo (idOk.getD 0)
              { msgType := msgType, msgID := msgID,
                msgRouter := false, msgHandler := false, msgRawHandler := false }
            msgID := insertM p.msgID msgType msgID }, none)

/-- `Processor.Marshal` of the extend package: id from `msgID`, header
per byte order, payload from the serializer. -/
def Processor.Marshal (p : Processor) (ser : Ser) (msg : Msg) :
    Option (List Nat × List Nat) × Option String :=
  match msg with
  | .raw _ _ => (none, some "protobuf: message %v not registered")
  | .typed msgType v =>
    match lookupM p.msgID msgType with
    | none => (none, some "protobuf: message %v not registered")
    | some msgId =>
      let id := putUint16 p.littleEndian msgId
      let dataErr := ser msgType v
      (some (id, dataErr.1), dataErr.2)

/-- `Processor.Unmarshal` of the extend package: length guard, header
decode, `msgInfo` lookup by id, raw passthrough or deserialization. -/
def Processor.Unmarshal (p : Processor) (dser : Dser) (data : List Nat) :
    Option Msg × Option String :=
  if data.length < 2 then (none, some "protobuf data too short")
  else
    let id := getUint16 p.littleEndian data
    match lookupM p.msgInfo id with
    | none => (none, some "protobuf: message ID %d not registered")
    | some info =>
      if info.msgRawHandler then (some (.raw id (data.drop 2)), none)
      else
        let vErr := dser info.msgType (data.drop 2)
        (some (.typed info.msgType vErr.1), vErr.2)

/-- `Processor.Route` of the extend package: the raw path checks
`msgInfo` by id; the typed path looks up the id in `msgID` and then
indexes `msgInfo[id]` without a comma-ok (a nil entry would fault). -/
def Processor.Route (p : Processor) (msg : Msg) (userData : Nat) :
    List Event × Option String :=
  match msg with
  | .raw msgID msgRawData =>
    match lookupM p.msgInfo msgID with
    | none => ([], some "message id %v not registered")
    | some info =>
      if info.msgRawHandler then ([.rawHandlerCall msgID msgRawData userData], none)
      else ([], none)
  | .typed msgType _ =>
    match lookupM p.msgID msgType with
    | none => ([], some "message %s not registered")
    | some id =>
      match lookupM p.msgInfo id with
      | none => ([], some nilDeref)
      | some info =>
        ((if info.msgHandler then [Event.handlerCall msg userData] else []) ++
          (if info.msgRouter then [Event.routerGo msgType msg userData] else []), none)

/-! ### Association-list map lemmas -/

theorem lookupM_insertM_self {κ α : Type} [DecidableEq κ]
    (m : List (κ × α)) (k : κ) (v : α) : lookupM (insertM m k v) k = some v := by
  induction m with
  | nil => simp [insertM, lookupM]
  | cons hd tl ih =>
    by_cases h : k = hd.1
    · simp [insertM, lookupM, h]
    · simp [insertM, lookupM, h, ih]

theorem lookupM_insertM_ne {κ α : Type} [DecidableEq κ]
    (m : List (κ × α)) (k k' : κ) (v : α) (h : k' ≠ k) :
    lookupM (insertM m k v) k' = lookupM m k' := by
  induction m with
  | nil => simp [insertM, lookupM, h]
  | cons hd tl ih =>
    by_cases h1 : k = hd.1
    · subst h1
      simp [insertM, lookupM, h]
    · by_cases h2 : k' = hd.1 <;> simp [insertM, lookupM, h1, h2, ih]

theorem lookupM_eq_none_of_forall_ne {κ α : Type} [DecidableEq κ]
    (m : List (κ × α)) (k : κ) (h : ∀ kv ∈ m, kv.1 ≠ k) : lookupM m k = none := by
  induction m with
  | nil => rfl
  | cons hd tl ih =>
    have hk : k ≠ hd.1 := fun he => h hd (by simp) he.symm
    simp only [lookupM, if_neg hk]
    exact ih fun kv hkv => h kv (List.mem_cons_of_mem hd hkv)

/-! ### Claim theorems -/

/-- Claim C7: for every input byte sequence of length 0 or 1, `Unmarshal`
(on either processor) fails with the frame-too-short error and returns no
message, for every deserializer — in particular it never attempts
deserialization on such input. -/
theorem C7_unmarshal_short_frame (data : List Nat) (h : data.length < 2) :
    (∀ (p : ProcessorV1) (dser : Dser),
      p.Unmarshal dser data = (none, some "protobuf data too short")) ∧
    (∀ (p : Processor) (dser : Dser),
      p.Unmarshal dser data = (none, some "protobuf data too short")) := by
  refine ⟨fun p dser => ?_, fun p dser => ?_⟩ <;>
    simp [ProcessorV1.Unmarshal, Processor.Unmarshal, h]

/-- Witness for C7 at the empty input. -/
theorem C7_unmarshal_short_frame_witness :
    ([] : List Nat).length < 2 ∧
    NewMsgIdProcessor.Unmarshal (fun _ _ => (0, none)) [] =
      (none, some "protobuf data too short") :=
  ⟨by decide,
    (C7_unmarshal_short_frame [] (by decide)).1 NewMsgIdProcessor (fun _ _ => (0, none))⟩

/-- Claim C9: `Route` on a `RawMessage` never performs a router
submission: on either processor the raw path's trace is either empty or
exactly one raw-handler invocation — never a `routerGo` event. -/
theorem C9_raw_path_handler_only (p1 : ProcessorV1) (p2 : Processor)
    (id : Nat) (rawData : List Nat) (userData : Nat) :
    ((p1.Route (Msg.raw id rawData) userData).1 = [] ∨
      (p1.Route (Msg.raw id rawData) userData).1 =
        [Event.rawHandlerCall id rawData userData]) ∧
    ((p2.Route (Msg.raw id rawData) userData).1 = [] ∨
      (p2.Route (Msg.raw id rawData) userData).1 =
        [Event.rawHandlerCall id rawData userData]) := by
  constructor
  · cases h1 : lookupM p1.typeID id with
    | none => simp [ProcessorV1.Route, h1]
    | some t =>
      cases h2 : lookupM p1.msgInfo t with
      | none => simp [ProcessorV1.Route, h1, h2]
      | some i =>
        by_cases h3 : i.msgRawHandler <;> simp [ProcessorV1.Route, h1, h2, h3]
  · cases h1 : lookupM p2.msgInfo id with
    | none => simp [Processor.Route, h1]
    | some info =>
      by_cases h2 : info.msgRawHandler <;> simp [Processor.Route, h1, h2]

/-- Claim C4: on either processor, `Route` on a typed message whose
registry entry has both a local handler and a router target attached
performs exactly the trace [handler invocation, router submission], in
that order, with the same message and context, and returns no error. -/
theorem C4_route_handler_then_router :
    (∀ (p : ProcessorV1) (t : GoType) (v userData : Nat) (i : MsgInfoV1),
      (lookupM p.msgID t).isSome = true →
      lookupM p.msgInfo t = some i →
      i.msgHandler = true → i.msgRouter = true →
      p.Route (Msg.typed t v) userData =
        ([Event.handlerCall (Msg.typed t v) userData,
          Event.routerGo t (Msg.typed t v) userData], none)) ∧
    (∀ (p : Processor) (t : GoType) (v id userData : Nat) (info : MsgInfo),
      lookupM p.msgID t = some id →
      lookupM p.msgInfo id = some info →
      info.msgHandler = true → info.msgRouter = true →
      p.Route (Msg.typed t v) userData =
        ([Event.handlerCall (Msg.typed t v) userData,
          Event.routerGo t (Msg.typed t v) userData], none)) := by
  constructor
  · intro p t v userData i h1 h2 h3 h4
    simp [ProcessorV1.Route, h1, h2, h3, h4]
  · intro p t v id userData info h1 h2 h3 h4
    simp [Processor.Route, h1, h2, h3, h4]

/-- Witness for C4 on concrete one-entry registries of both shapes. -/
theorem C4_route_handler_then_router_witness :
    ProcessorV1.Route
        ⟨false, [(⟨1, true⟩, ⟨⟨1, true⟩, 1, true, true, false⟩)],
          [(⟨1, true⟩, 1)], [(1, ⟨1, true⟩)]⟩ (Msg.typed ⟨1, true⟩ 7) 3 =
      ([Event.handlerCall (Msg.typed ⟨1, true⟩ 7) 3,
        Event.routerGo ⟨1, true⟩ (Msg.typed ⟨1, true⟩ 7) 3], none) ∧
    Processor.Route
        ⟨false, [(1, ⟨⟨1, true⟩, 1, true, true, false⟩)], [(⟨1, true⟩, 1)]⟩
        (Msg.typed ⟨1, true⟩ 7) 3 =
      ([Event.handlerCall (Msg.typed ⟨1, true⟩ 7) 3,
        Event.routerGo ⟨1, true⟩ (Msg.typed ⟨1, true⟩ 7) 3], none) :=
  ⟨C4_route_handler_then_router.1 _ ⟨1, true⟩ 7 3 ⟨⟨1, true⟩, 1, true, true, false⟩
      (by decide) (by decide) rfl rfl,
    C4_route_handler_then_router.2 _ ⟨1, true⟩ 7 1 3 ⟨⟨1, true⟩, 1, true, true, false⟩
      (by decide) (by decide) rfl rfl⟩

/-- Claim C10: `Route` on a message found in the registry but with no
matching attachment (typed message with neither handler nor router; raw
message with no raw handler) returns success with an empty trace, on
either processor. -/
theorem C10_no_attachment_silent_drop :
    (∀ (p : ProcessorV1) (t : GoType) (v userData : Nat) (i : MsgInfoV1),
      (lookupM p.msgID t).isSome = true →
      lookupM p.msgInfo t = some i →
      i.msgHandler = false → i.msgRouter = false →
      p.Route (Msg.typed t v) userData = ([], none)) ∧
    (∀ (p : ProcessorV1) (id : Nat) (rawData : List Nat) (userData : Nat)
        (t : GoType) (i : MsgInfoV1),
      lookupM p.typeID id = some t →
      lookupM p.msgInfo t = some i →
      i.msgRawHandler = false →
      p.Route (Msg.raw id rawData) userData = ([], none)) ∧
    (∀ (p : Processor) (t : GoType) (v id userData : Nat) (info : MsgInfo),
      lookupM p.msgID t = some id →
      lookupM p.msgInfo id = some info →
      info.msgHandler = false → info.msgRouter = false →
      p.Route (Msg.typed t v) userData = ([], none)) ∧
    (∀ (p : Processor) (id : Nat) (rawData : List Nat) (userData : Nat)
        (info : MsgInfo),
      lookupM p.msgInfo id = some info →
      info.msgRawHandler = false →
      p.Route (Msg.raw id rawData) userData = ([], none)) := by
  refine ⟨?_, ?_, ?_, ?_⟩
  · intro p t v userData i h1 h2 h3 h4
    simp [ProcessorV1.Route, h1, h2, h3, h4]
  · intro p id rawData userData t i h1 h2 h3
    simp [ProcessorV1.Route, h1, h2, h3]
  · intro p t v id userData info h1 h2 h3 h4
    simp [Processor.Route, h1, h2, h3, h4]
  · intro p id rawData userData info h1 h2
    simp [Processor.Route, h1, h2]

/-- Witness for C10: attachment-free entries are dropped silently on
concrete registries, on both the typed and the raw path. -/
theorem C10_no_attachment_silent_drop_witness :
    ProcessorV1.Route
        ⟨false, [(⟨1, true⟩, ⟨⟨1, true⟩, 1, false, false, false⟩)],
          [(⟨1, true⟩, 1)], [(1, ⟨1, true⟩)]⟩ (Msg.typed ⟨1, true⟩ 0) 0 = ([], none) ∧
    ProcessorV1.Route
        ⟨false, [(⟨1, true⟩, ⟨⟨1, true⟩, 1, false, false, false⟩)],
          [(⟨1, true⟩, 1)], [(1, ⟨1, true⟩)]⟩ (Msg.raw 1 [9]) 0 = ([], none) ∧
    Processor.Route
        ⟨false, [(1, ⟨⟨1, true⟩, 1, false, false, false⟩)], [(⟨1, true⟩, 1)]⟩
        (Msg.typed ⟨1, true⟩ 0) 0 = ([], none) ∧
    Processor.Route
        ⟨false, [(1, ⟨⟨1, true⟩, 1, false, false, false⟩)], [(⟨1, true⟩, 1)]⟩
        (Msg.raw 1 [9]) 0 = ([], none) :=
  ⟨C10_no_attachment_silent_drop.1 _ ⟨1, true⟩ 0 0 ⟨⟨1, true⟩, 1, false, false, false⟩
      (by decide) (by decide) rfl rfl,
    C10_no_attachment_silent_drop.2.1 _ 1 [9] 0 ⟨1, true⟩
      ⟨⟨1, true⟩, 1, false, false, false⟩ (by decide) (by decide) rfl,
    C10_no_attachment_silent_drop.2.2.1 _ ⟨1, true⟩ 0 1 0
      ⟨⟨1, true⟩, 1, false, false, false⟩ (by decide) (by decide) rfl rfl,
    C10_no_attachment_silent_drop.2.2.2 _ 1 [9] 0
      ⟨⟨1, true⟩, 1, false, false, false⟩ (by decide) rfl⟩

/-- Claim C5: if ID `k` is registered with a raw handler attached, then
`Unmarshal` of any input of length at least 2 whose header decodes to `k`
returns a `RawMessage` with ID `k` whose payload is exactly the input
after the 2-byte header, for every deserializer — the serialization
collaborator is never consulted. -/
theorem C5_raw_handler_unmarshal_passthrough :
    (∀ (p : ProcessorV1) (k : Nat) (t : GoType) (i : MsgInfoV1) (data : List Nat),
      2 ≤ data.length →
      getUint16 p.littleEndian data = k →
      lookupM p.typeID k = some t →
      lookupM p.msgInfo t = some i →
      i.msgRawHandler = true →
      ∀ dser : Dser, p.Unmarshal dser data = (some (Msg.raw k (data.drop 2)), none)) ∧
    (∀ (p : Processor) (k : Nat) (info : MsgInfo) (data : List Nat),
      2 ≤ data.length →
      getUint16 p.littleEndian data = k →
      lookupM p.msgInfo k = some info →
      info.msgRawHandler = true →
      ∀ dser : Dser, p.Unmarshal dser data = (some (Msg.raw k (data.drop 2)), none)) := by
  constructor
  · intro p k t i data hlen hid h1 h2 h3 dser
    simp [ProcessorV1.Unmarshal, Nat.not_lt.mpr hlen, hid, h1, h2, h3]
  · intro p k info data hlen hid h1 h2 dser
    simp [Processor.Unmarshal, Nat.not_lt.mpr hlen, hid, h1, h2]

/-- Witness for C5: a concrete frame `[0,1,9,8]` with big-endian ID 1 and
a raw handler attached passes `[9,8]` through untouched on both
processors. -/
theorem C5_raw_handler_unmarshal_passthrough_witness :
    ProcessorV1.Unmarshal
        ⟨false, [(⟨1, true⟩, ⟨⟨1, true⟩, 1, false, false, true⟩)],
          [(⟨1, true⟩, 1)], [(1, ⟨1, true⟩)]⟩ (fun _ _ => (0, none)) [0, 1, 9, 8] =
      (some (Msg.raw 1 [9, 8]), none) ∧
    Processor.Unmarshal
        ⟨false, [(1, ⟨⟨1, true⟩, 1, false, false, true⟩)], [(⟨1, true⟩, 1)]⟩
        (fun _ _ => (0, none)) [0, 1, 9, 8] =
      (some (Msg.raw 1 [9, 8]), none) :=
  ⟨C5_raw_handler_unmarshal_passthrough.1 _ 1 ⟨1, true⟩
      ⟨⟨1, true⟩, 1, false, false, true⟩ [0, 1, 9, 8]
      (by decide) (by decide) (by decide) (by decide) rfl (fun _ _ => (0, none)),
    C5_raw_handler_unmarshal_passthrough.2 _ 1
      ⟨⟨1, true⟩, 1, false, false, true⟩ [0, 1, 9, 8]
      (by decide) (by decide) (by decide) rfl (fun _ _ => (0, none))⟩

/-- Claim C6: registering the same schema a second time on the same
processor is rejected as a fatal configuration error, and the state
returned by the failed second `Register` call is exactly the state before
it — no map or field is mutated. Holds for both processors. -/
theorem C6_duplicate_registration :
    (∀ (p p1 : ProcessorV1) (id id2 : Nat) (t : GoType),
      p.Register id (some t) = (p1, none) →
      p1.Register id2 (some t) =
        (p1, some "protobuf: message %v is already registered")) ∧
    (∀ (p p1 : Processor) (id id2 : Nat) (t : GoType),
      p.Register id (some t) = (p1, none) →
      p1.Register id2 (some t) =
        (p1, some "protobuf: message %v is already registered")) := by
  constructor
  · intro p p1 id id2 t h
    simp only [ProcessorV1.Register] at h
    split_ifs at h with h1 h2 h3
    · simp at h
    · simp at h
    · simp at h
    · have hp1 := congrArg Prod.fst h
      simp only at hp1
      subst hp1
      simp [ProcessorV1.Register, h1, lookupM_insertM_self]
  · intro p p1 id id2 t h
    simp only [Processor.Register] at h
    split_ifs at h with h1 h2 h3
    · simp at h
    · simp at h
    · simp at h
    · have hp1 := congrArg Prod.fst h
      simp only at hp1
      subst hp1
      simp [Processor.Register, h1, lookupM_insertM_self]

/-- Witness for C6 on both processors, re-registering a concrete schema. -/
theorem C6_duplicate_registration_witness :
    ProcessorV1.Register (NewMsgIdProcessor.Register 1 (some ⟨1, true⟩)).1 2
        (some ⟨1, true⟩) =
      ((NewMsgIdProcessor.Register 1 (some ⟨1, true⟩)).1,
        some "protobuf: message %v is already registered") ∧
    Processor.Register (Processor.new.Register 1 (some ⟨1, true⟩)).1 2
        (some ⟨1, true⟩) =
      ((Processor.new.Register 1 (some ⟨1, true⟩)).1,
        some "protobuf: message %v is already registered") :=
  ⟨C6_duplicate_registration.1 NewMsgIdProcessor _ 1 2 ⟨1, true⟩ (by decide),
    C6_duplicate_registration.2 Processor.new _ 1 2 ⟨1, true⟩ (by decide)⟩

/-- Claim C8: on a freshly constructed processor on which `SetByteOrder`
was never called the byte order is big-endian, and `Marshal` of a message
whose schema was registered with ID 1 produces the header `[0x00, 0x01]`,
whatever the serializer returns for the payload. Holds for
`NewMsgIdProcessor` and for the extend processor's fresh state. -/
theorem C8_default_big_endian (t : GoType) (p : ProcessorV1) (q : Processor)
    (hp : NewMsgIdProcessor.Register 1 (some t) = (p, none))
    (hq : Processor.new.Register 1 (some t) = (q, none)) :
    p.littleEndian = false ∧ q.littleEndian = false ∧
    (∀ (ser : Ser) (v : Nat),
      (p.Marshal ser (Msg.typed t v)).1 = some ([0, 1], (ser t v).1)) ∧
    (∀ (ser : Ser) (v : Nat),
      (q.Marshal ser (Msg.typed t v)).1 = some ([0, 1], (ser t v).1)) := by
  by_cases ht : t.isPtr = false
  · simp [ProcessorV1.Register, NewMsgIdProcessor, ht] at hp
  · simp only [ProcessorV1.Register, NewMsgIdProcessor, ht, if_false] at hp
    simp only [Processor.Register, Processor.new, ht, if_false] at hq
    simp only [lookupM, insertM, Option.isSome_none, Bool.false_eq_true, if_false,
      List.length_nil, show ¬(65535 ≤ 0) by omega, Option.getD_none] at hp hq
    have hp1 := congrArg Prod.fst hp
    have hq1 := congrArg Prod.fst hq
    simp only at hp1 hq1
    subst hp1
    subst hq1
    refine ⟨rfl, rfl, fun ser v => ?_, fun ser v => ?_⟩
    · simp [ProcessorV1.Marshal, lookupM, putUint16]
    · simp [Processor.Marshal, lookupM, putUint16]

/-- Witness for C8: registering a concrete schema with ID 1 on each fresh
processor and marshalling yields the big-endian header `[0, 1]`. -/
theorem C8_default_big_endian_witness :
    ((NewMsgIdProcessor.Register 1 (some ⟨1, true⟩)).1.Marshal
        (fun _ _ => ([9], none)) (Msg.typed ⟨1, true⟩ 0)).1 = some ([0, 1], [9]) ∧
    ((Processor.new.Register 1 (some ⟨1, true⟩)).1.Marshal
        (fun _ _ => ([9], none)) (Msg.typed ⟨1, true⟩ 0)).1 = some ([0, 1], [9]) := by
  have h := C8_default_big_endian ⟨1, true⟩
    (NewMsgIdProcessor.Register 1 (some ⟨1, true⟩)).1
    (Processor.new.Register 1 (some ⟨1, true⟩)).1 (by decide) (by decide)
  exact ⟨h.2.2.1 (fun _ _ => ([9], none)) 0, h.2.2.2 (fun _ _ => ([9], none)) 0⟩

/-- Claim C1 (evaluation at the failing input): on the extend processor,
`Register(5, schema)` succeeds, `Marshal` of a fresh instance of that
schema produces the frame segments `([0, 5], payload)`, yet `Unmarshal`
of their concatenation fails with the unknown-ID error instead of
yielding a schema-equal instance — because `Register` stored the
`MsgInfo` under the stale zero-valued `id` of the comma-ok lookup rather
than under `msgID = 5`. The same scenario on `ProcessorV1` (last two
conjuncts) round-trips to a schema-equal instance, as the claim states. -/
theorem C1_extend_roundtrip_failure :
    (Processor.new.Register 5 (some ⟨1, true⟩)).2 = none ∧
    (Processor.new.Register 5 (some ⟨1, true⟩)).1.Marshal
        (fun _ _ => ([7], none)) (Msg.typed ⟨1, true⟩ 0) =
      (some ([0, 5], [7]), none) ∧
    (Processor.new.Register 5 (some ⟨1, true⟩)).1.Unmarshal
        (fun _ _ => (0, none)) ([0, 5] ++ [7]) =
      (none, some "protobuf: message ID %d not registered") ∧
    (NewMsgIdProcessor.Register 5 (some ⟨1, true⟩)).2 = none ∧
    (NewMsgIdProcessor.Register 5 (some ⟨1, true⟩)).1.Unmarshal
        (fun _ _ => (0, none)) ([0, 5] ++ [7]) =
      (some (Msg.typed ⟨1, true⟩ 0), none) := by
  decide

/-- Claim C2 (counterexample): on `ProcessorV1`, registering schema A
under ID 1 and then schema B ≠ A under the same ID 1 both succeed, after
which `typeID` has been silently rebound from A to B and `msgID` maps two
distinct schemas to the same ID — the registry binding is not a bijection
and a held ID is silently rebound. -/
theorem C2_counterexample :
    (NewMsgIdProcessor.Register 1 (some ⟨1, true⟩)).2 = none ∧
    ((NewMsgIdProcessor.Register 1 (some ⟨1, true⟩)).1.Register 1
        (some ⟨2, true⟩)).2 = none ∧
    lookupM (NewMsgIdProcessor.Register 1 (some ⟨1, true⟩)).1.typeID 1 =
      some ⟨1, true⟩ ∧
    lookupM ((NewMsgIdProcessor.Register 1 (some ⟨1, true⟩)).1.Register 1
        (some ⟨2, true⟩)).1.typeID 1 = some ⟨2, true⟩ ∧
    lookupM ((NewMsgIdProcessor.Register 1 (some ⟨1, true⟩)).1.Register 1
        (some ⟨2, true⟩)).1.msgID ⟨1, true⟩ = some 1 ∧
    lookupM ((NewMsgIdProcessor.Register 1 (some ⟨1, true⟩)).1.Register 1
        (some ⟨2, true⟩)).1.msgID ⟨2, true⟩ = some 1 ∧
    (⟨1, true⟩ : GoType) ≠ ⟨2, true⟩ := by
  decide

/-- Claim C2 as amended: after any sequence of successful `Register`
calls each registered schema is bound to exactly one MessageID. On
`ProcessorV1` a successful `Register(id, schema)` binds the id to the
schema on both the encode-side and decode-side lookup structures, leaves
the encode-side binding of every other schema unchanged, and a schema
already present can never be rebound (its re-registration fails fatally
and changes nothing); however ID-side uniqueness is not enforced: a
successful registration rebinds the decode side for its ID
unconditionally, even if a different schema already held that ID. On the
extend `Processor` a successful `Register(id, schema)` binds only the
encode side: its decode-side write is misplaced to the fixed key 0 (the
defect recorded under C1), and the decode-side entry of every nonzero
key — in particular of a nonzero `id` itself — is left exactly as it
was. -/
theorem C2_amended_registry_binding :
    (∀ (p p' : ProcessorV1) (id : Nat) (t : GoType),
      p.Register id (some t) = (p', none) →
      lookupM p'.msgID t = some id ∧ lookupM p'.typeID id = some t) ∧
    (∀ (p p' : ProcessorV1) (id : Nat) (t t2 : GoType),
      p.Register id (some t) = (p', none) → t2 ≠ t →
      lookupM p'.msgID t2 = lookupM p.msgID t2) ∧
    (∀ (p : ProcessorV1) (id : Nat) (t : GoType) (i : MsgInfoV1),
      lookupM p.msgInfo t = some i →
      (p.Register id (some t)).1 = p ∧ (p.Register id (some t)).2.isSome = true) ∧
    (∀ (p p' : ProcessorV1) (id : Nat) (t t0 : GoType),
      p.Register id (some t) = (p', none) →
      lookupM p.typeID id = some t0 →
      lookupM p'.typeID id = some t) ∧
    (∀ (p p' : Processor) (id : Nat) (t : GoType),
      p.Register id (some t) = (p', none) →
      lookupM p'.msgID t = some id) ∧
    (∀ (p p' : Processor) (id : Nat) (t : GoType),
      p.Register id (some t) = (p', none) →
      lookupM p'.msgInfo 0 =
        some { msgType := t, msgID := id,
               msgRouter := false, msgHandler := false, msgRawHandler := false }) ∧
    (∀ (p p' : Processor) (id : Nat) (t : GoType),
      p.Register id (some t) = (p', none) → ∀ k, k ≠ 0 →
      lookupM p'.msgInfo k = lookupM p.msgInfo k) := by
  have hmain : ∀ (p p' : ProcessorV1) (id : Nat) (t : GoType),
      p.Register id (some t) = (p', none) →
      p' = { p with
        msgInfo := insertM p.msgInfo t
          { msgType := t, msgID := id,
            msgRouter := false, msgHandler := false, msgRawHandler := false }
        msgID := insertM p.msgID t id
        typeID := insertM p.typeID id t } := by
    intro p p' id t h
    simp only [ProcessorV1.Register] at h
    split_ifs at h with h1 h2 h3
    · simp at h
    · simp at h
    · simp at h
    · exact (congrArg Prod.fst h).symm
  have hext : ∀ (p p' : Processor) (id : Nat) (t : GoType),
      p.Register id (some t) = (p', none) →
      p' = { p with
        msgInfo := insertM p.msgInfo 0
          { msgType := t, msgID := id,
            msgRouter := false, msgHandler := false, msgRawHandler := false }
        msgID := insertM p.msgID t id } := by
    intro p p' id t h
    simp only [Processor.Register] at h
    split_ifs at h with h1 h2 h3
    · simp at h
    · simp at h
    · simp at h
    · have hn : lookupM p.msgID t = none := Option.not_isSome_iff_eq_none.mp h2
      have hp' := (congrArg Prod.fst h).symm
      simp only [hn, Option.getD_none] at hp'
      exact hp'
  refine ⟨?_, ?_, ?_, ?_, ?_, ?_, ?_⟩
  · intro p p' id t h
    rw [hmain p p' id t h]
    exact ⟨lookupM_insertM_self _ _ _, lookupM_insertM_self _ _ _⟩
  · intro p p' id t t2 h hne
    rw [hmain p p' id t h]
    exact lookupM_insertM_ne _ _ _ _ hne
  · intro p id t i h
    by_cases h1 : t.isPtr = false <;>
      simp [ProcessorV1.Register, h1, h]
  · intro p p' id t t0 h h0
    rw [hmain p p' id t h]
    exact lookupM_insertM_self _ _ _
  · intro p p' id t h
    rw [hext p p' id t h]
    exact lookupM_insertM_self _ _ _
  · intro p p' id t h
    rw [hext p p' id t h]
    exact lookupM_insertM_self _ _ _
  · intro p p' id t h k hk
    rw [hext p p' id t h]
    exact lookupM_insertM_ne _ _ _ _ hk

/-- Witness for the amended C2: a concrete successful registration binds
both sides on `ProcessorV1`, while on the extend processor the same
registration leaves the decode-side entry for ID 3 absent and deposits
the record under key 0. -/
theorem C2_amended_registry_binding_witness :
    lookupM (NewMsgIdProcessor.Register 3 (some ⟨1, true⟩)).1.msgID ⟨1, true⟩ =
      some 3 ∧
    lookupM (NewMsgIdProcessor.Register 3 (some ⟨1, true⟩)).1.typeID 3 =
      some ⟨1, true⟩ ∧
    lookupM (Processor.new.Register 3 (some ⟨1, true⟩)).1.msgID ⟨1, true⟩ =
      some 3 ∧
    lookupM (Processor.new.Register 3 (some ⟨1, true⟩)).1.msgInfo 0 =
      some ⟨⟨1, true⟩, 3, false, false, false⟩ ∧
    lookupM (Processor.new.Register 3 (some ⟨1, true⟩)).1.msgInfo 3 =
      lookupM Processor.new.msgInfo 3 :=
  ⟨(C2_amended_registry_binding.1 NewMsgIdProcessor _ 3 ⟨1, true⟩ (by decide)).1,
    (C2_amended_registry_binding.1 NewMsgIdProcessor _ 3 ⟨1, true⟩ (by decide)).2,
    C2_amended_registry_binding.2.2.2.2.1 Processor.new _ 3 ⟨1, true⟩ (by decide),
    C2_amended_registry_binding.2.2.2.2.2.1 Processor.new _ 3 ⟨1, true⟩ (by decide),
    C2_amended_registry_binding.2.2.2.2.2.2 Processor.new _ 3 ⟨1, true⟩ (by decide)
      3 (by decide)⟩

/-- A `msgInfo` map holding 65535 entries: schemas tagged 1..65535, each
registered under the ID equal to its tag. -/
def bigInfoList : List (GoType × MsgInfoV1) :=
  (List.range 65535).map fun i =>
    (⟨i + 1, true⟩,
      { msgType := ⟨i + 1, true⟩, msgID := i + 1,
        msgRouter := false, msgHandler := false, msgRawHandler := false })

/-- A `ProcessorV1` whose registry holds 65535 entries. -/
def bigP : ProcessorV1 :=
  { littleEndian := false, msgInfo := bigInfoList,
    msgID := [], typeID := [] }

theorem bigP_msgInfo_eq : bigP.msgInfo = bigInfoList := by simp [bigP]

theorem bigInfoList_length : bigInfoList.length = 65535 := by
  simp [bigInfoList]

theorem bigInfoList_lookup_fresh : lookupM bigInfoList ⟨0, true⟩ = none := by
  refine lookupM_eq_none_of_forall_ne _ _ ?_
  intro kv hkv
  simp only [bigInfoList, List.mem_map, List.mem_range] at hkv
  obtain ⟨i, -, rfl⟩ := hkv
  intro he
  exact Nat.succ_ne_zero i (congrArg GoType.tag he)

/-- Claim C3 (counterexample): a registry state with 65535 entries —
strictly fewer than the 65536 the claim allows — already fails the
capacity check when a fresh valid schema is registered, because the
source's bound is `len(p.msgInfo) >= math.MaxUint16`, i.e. 65535. -/
theorem C3_counterexample :
    bigP.msgInfo.length = 65535 ∧ (65535 : Nat) < 65536 ∧
    (⟨0, true⟩ : GoType).isPtr = true ∧
    lookupM bigP.msgInfo ⟨0, true⟩ = none ∧
    (bigP.Register 0 (some ⟨0, true⟩)).2 =
      some "too many protobuf messages (max = %v)" := by
  refine ⟨?_, by norm_num, rfl, ?_, ?_⟩
  · rw [bigP_msgInfo_eq, bigInfoList_length]
  · rw [bigP_msgInfo_eq, bigInfoList_lookup_fresh]
  · simp [ProcessorV1.Register, bigP, bigInfoList_lookup_fresh, bigInfoList_length]

/-- Claim C3 as amended: for a fresh, valid (pointer-kind, not yet
registered) schema, `Register` fails the capacity check exactly when the
registry already holds at least 65535 entries — the capacity is 65535
(`math.MaxUint16`), not 65536. Holds for both processors. -/
theorem C3_amended_capacity :
    (∀ (p : ProcessorV1) (id : Nat) (t : GoType),
      t.isPtr = true → lookupM p.msgInfo t = none →
      ((p.Register id (some t)).2 = some "too many protobuf messages (max = %v)" ↔
        65535 ≤ p.msgInfo.length)) ∧
    (∀ (p : Processor) (id : Nat) (t : GoType),
      t.isPtr = true → lookupM p.msgID t = none →
      ((p.Register id (some t)).2 = some "too many protobuf messages (max = %v)" ↔
        65535 ≤ p.msgInfo.length)) := by
  constructor
  · intro p id t hptr hfresh
    by_cases hc : 65535 ≤ p.msgInfo.length <;>
      simp [ProcessorV1.Register, hptr, hfresh, hc]
  · intro p id t hptr hfresh
    by_cases hc : 65535 ≤ p.msgInfo.length <;>
      simp [Processor.Register, hptr, hfresh, hc]

/-- Witness for the amended C3 at the empty registry, where the capacity
check does not trip. -/
theorem C3_amended_capacity_witness :
    ((NewMsgIdProcessor.Register 0 (some ⟨1, true⟩)).2 =
        some "too many protobuf messages (max = %v)" ↔
      65535 ≤ NewMsgIdProcessor.msgInfo.length) :=
  C3_amended_capacity.1 NewMsgIdProcessor 0 ⟨1, true⟩ rfl rfl

end Leaf
